import Mathlib

/-!
Shallow embedding, in Lean 4, of the client Session & Response-Cache Manager of
the larun.space repository: the `Chat` module (conversation store, session
controller, fallback response generator) and the `MASTService` time-bounded
cache. Pure functions of the source become Lean functions; stateful methods
become explicit state-passing functions on a `ChatState` record. The JavaScript
millisecond clock (`Date.now()`) is passed in as an explicit `Nat` argument at
every call that reads it; DOM rendering calls, which touch no chat state, are
omitted. JavaScript strings are modelled by Lean `String` (case folding is the
ASCII folding used by every keyword in the source).
-/

set_option autoImplicit false
set_option maxRecDepth 40000

namespace LarunSpace

/-! ## JavaScript string primitives -/

/-- Does the pattern occur at the head of the text? (`List Char` form.) -/
def listStartsWith : List Char → List Char → Bool
  | [], _ => true
  | _ :: _, [] => false
  | p :: ps, c :: cs => p == c && listStartsWith ps cs

/-- Does the pattern occur anywhere in the text? (`List Char` form.) -/
def listContains (pat : List Char) : List Char → Bool
  | [] => listStartsWith pat []
  | c :: cs => listStartsWith pat (c :: cs) || listContains pat cs

/-- JavaScript `String.prototype.includes`: substring occurrence test. -/
def jsIncludes (s pat : String) : Bool :=
  listContains pat.toList s.toList

/-! ## Decimal rendering of the millisecond clock

`Date.now().toString()` renders a nonnegative integer in decimal. We embed it
as `jsNumToString` below and prove the decimal decode round-trip, which gives
injectivity of identifier allocation across distinct clock readings. -/

/-- The decimal digit character for a value below ten. -/
def natDigitChar : Nat → Char
  | 0 => '0'
  | 1 => '1'
  | 2 => '2'
  | 3 => '3'
  | 4 => '4'
  | 5 => '5'
  | 6 => '6'
  | 7 => '7'
  | 8 => '8'
  | _ => '9'

/-- Decimal digit list of a natural number, most significant first. -/
def natDecDigits (n : Nat) : List Char :=
  if h : n < 10 then [natDigitChar n]
  else natDecDigits (n / 10) ++ [natDigitChar (n % 10)]
decreasing_by exact Nat.div_lt_self (by omega) (by omega)

/-- JavaScript `Number.prototype.toString` restricted to the nonnegative
integers the source feeds it (millisecond clock readings). -/
def jsNumToString (n : Nat) : String :=
  String.mk (natDecDigits n)

/-- Numeric value of a decimal digit character. -/
def decDigitVal (c : Char) : Nat := c.toNat - 48

/-- Decode a decimal string back to the number it denotes. -/
def decodeDec (s : String) : Nat :=
  s.toList.foldl (fun a c => 10 * a + decDigitVal c) 0

/-- JavaScript `String.prototype.toLowerCase`, restricted to the ASCII case
folding that every keyword tested by the source uses. -/
def jsToLowerCase (s : String) : String :=
  String.mk (s.data.map Char.toLower)

/-! ## Regular-expression scanners of the fallback generator

The source uses three regular expressions; each is embedded as a
left-to-right scan that attempts the pattern at every position, exactly as the
JavaScript engine does for an unanchored pattern, and returns the first
captured group. -/

/-- Membership in the JavaScript character class \s (whitespace). -/
def isJsSpace (c : Char) : Bool :=
  c == ' ' || c == '\t' || c == '\n' || c == '\r' ||
  c == '\x0b' || c == '\x0c' || c == '\u00a0' || c == '\u1680' ||
  ('\u2000' ≤ c && c ≤ '\u200a') || c == '\u2028' || c == '\u2029' ||
  c == '\u202f' || c == '\u205f' || c == '\u3000' || c == '\ufeff'

/-- Attempt of the pattern TIC\s*(\d+) (with the ignore-case flag) at the head
of the text: the letters t, i, c in any case, a greedy run of whitespace, then
a nonempty greedy run of digits, which is the captured group. Backtracking of
the whitespace run can never help because \s and \d are disjoint. -/
def matchTicAt : List Char → Option (List Char)
  | t :: i :: c :: rest =>
      if t.toLower == 't' && i.toLower == 'i' && c.toLower == 'c' then
        let digits := (rest.dropWhile isJsSpace).takeWhile Char.isDigit
        if digits.isEmpty then none else some digits
      else none
  | _ => none

/-- First match of TIC\s*(\d+) (ignore-case) scanning left to right. -/
def jsMatchTic : List Char → Option (List Char)
  | [] => none
  | c :: cs =>
      match matchTicAt (c :: cs) with
      | some d => some d
      | none => jsMatchTic cs

/-- Attempt of the pattern (\d{6,}) at the head of the text: a greedy digit
run of length at least six. -/
def matchSixAt (cs : List Char) : Option (List Char) :=
  let digits := cs.takeWhile Char.isDigit
  if 6 ≤ digits.length then some digits else none

/-- First match of (\d{6,}) scanning left to right. -/
def jsMatchSixDigits : List Char → Option (List Char)
  | [] => none
  | c :: cs =>
      match matchSixAt (c :: cs) with
      | some d => some d
      | none => jsMatchSixDigits cs

/-- Attempt of the pattern Kepler-(\d+) (ignore-case) at the head of the
text. -/
def matchKeplerAt : List Char → Option (List Char)
  | k :: e1 :: p :: l :: e2 :: r :: dash :: rest =>
      if k.toLower == 'k' && e1.toLower == 'e' && p.toLower == 'p' &&
         l.toLower == 'l' && e2.toLower == 'e' && r.toLower == 'r' && dash == '-' then
        let digits := rest.takeWhile Char.isDigit
        if digits.isEmpty then none else some digits
      else none
  | _ => none

/-- First match of Kepler-(\d+) (ignore-case) scanning left to right. -/
def jsMatchKepler : List Char → Option (List Char)
  | [] => none
  | c :: cs =>
      match matchKeplerAt (c :: cs) with
      | some d => some d
      | none => jsMatchKepler cs

/-! ## Data model of the Chat module (src js chat module)

`Date.now()` readings are passed in as `Nat` arguments; the
`new Date().toISOString()` stamp taken in the same statement is modelled by
the same clock reading. `persisted` models the localStorage copy written by
`saveConversations`. DOM element caching and rendering touch no chat state
and are omitted. -/

inductive Role where
  | user
  | assistant
deriving DecidableEq

structure Message where
  id : String
  role : Role
  content : String
  timestamp : Nat
deriving DecidableEq

structure Conversation where
  id : String
  title : String
  messages : List Message
  createdAt : Nat
  updatedAt : Nat
deriving DecidableEq

structure ChatState where
  conversations : List Conversation
  currentConversation : Option String
  messages : List Message
  isLoading : Bool
  persisted : List Conversation
deriving DecidableEq

/-! ## Fallback response templates (Chat.getSimulatedResponse)

Each template literal of the source becomes a Lean string; an interpolation
hole becomes a concatenation point. -/

/-- Template of the target/search/transit branch. -/
def ticResponse (ticId : String) : String :=
  "I\x27ll analyze TIC " ++ ticId ++ " for transit signals.\n\n**Fetching Data**\n- Mission: TESS\n- Sectors: 1, 2, 3\n\n**BLS Periodogram Results**\n| Parameter | Value |\n|-----------|-------|\n| Period | 3.425 ± 0.001 days |\n| T₀ (BJD) | 2458765.432 |\n| Depth | 2,300 ± 120 ppm |\n| Duration | 2.5 hours |\n| SNR | 12.4 |\n\n**TinyML Detection**\n✓ Transit candidate detected with 87.3% confidence\n\nThe light curve shows a clear periodic signal consistent with a planetary transit. Would you like me to:\n1. Fit the transit model for detailed parameters?\n2. Check if this planet is in the habitable zone?\n3. Generate a full analysis report?"

/-- Template of the habitable-zone branch. -/
def hzResponse : String :=
  "**Habitable Zone Analysis**\n\nBased on the stellar parameters:\n- Stellar Teff: 3,480 K (M dwarf)\n- Stellar Luminosity: 0.023 L☉\n- Planet Semi-major axis: 0.163 AU\n\n**Result: ✓ Within the Habitable Zone**\n\nThe planet receives approximately 86% of Earth\x27s insolation, placing it in the conservative habitable zone where liquid water could exist on the surface.\n\n**Equilibrium Temperature**\n- Assuming Earth-like albedo (0.3): 255 K (-18°C)\n- With greenhouse effect: ~288 K (15°C)\n\nThis is an excellent candidate for atmospheric characterization with JWST."

/-- Template of the Kepler branch. -/
def keplerResponse (keplerId : String) : String :=
  "**Kepler-" ++ keplerId ++ " System Analysis**\n\nKepler-" ++ keplerId ++ " is a fascinating multi-planet system. Here\x27s what we know:\n\n| Parameter | Value |\n|-----------|-------|\n| Host Star | G-type (solar-like) |\n| Distance | 2,000 light years |\n| Planets | 6 confirmed |\n\n**Light Curve**\nThe system shows complex transit patterns due to multiple planets. I can:\n1. Analyze individual planet transits\n2. Search for Transit Timing Variations (TTVs)\n3. Look for additional candidates\n\nWhat would you like to explore?"

/-- Template of the report/generate branch. -/
def reportResponse : String :=
  "**Generating Analysis Report**\n\nI\x27m preparing a comprehensive report including:\n\n1. **Target Summary**\n   - Stellar parameters\n   - Observation metadata\n\n2. **Detection Results**\n   - BLS periodogram\n   - TinyML classification\n   - Signal-to-noise analysis\n\n3. **Planet Characterization**\n   - Orbital parameters\n   - Radius estimate\n   - Habitability assessment\n\n4. **Figures**\n   - Light curve with transits marked\n   - Folded light curve\n   - Periodogram\n\n📄 [Download Report (PDF)](#)\n\nThe report follows TESS Follow-up Observing Program (TFOP) guidelines and can be used for publication or follow-up proposals."

/-- Template of the default help branch. -/
def defaultResponse (message : String) : String :=
  "I understand you\x27re asking about: \"" ++ message ++ "\"\n\nI can help you with:\n- **Transit Search**: \"Search for transits in TIC 307210830\"\n- **Light Curve Analysis**: \"Analyze light curve for Kepler-11\"\n- **Habitability Check**: \"Is TOI-700 d in the habitable zone?\"\n- **Report Generation**: \"Generate a report for my candidate\"\n\nWhat would you like to explore?"

/-- Identifier extraction of the target branch:
message.match of TIC\s*(\d+) ignore-case, else message.match of (\d{6,});
when both fail the fixed default identifier is substituted. -/
def ticIdOf (message : String) : String :=
  let ticMatch :=
    match jsMatchTic message.data with
    | some d => some d
    | none => jsMatchSixDigits message.data
  match ticMatch with
  | some d => String.mk d
  | none => "307210830"

/-- Identifier extraction of the Kepler branch; default identifier 11. -/
def keplerIdOf (message : String) : String :=
  match jsMatchKepler message.data with
  | some d => String.mk d
  | none => "11"

/-- Chat.getSimulatedResponse: the fallback response generator. The method
reads nothing of the chat state; the unused receiver is kept as an explicit
argument. -/
def Chat.getSimulatedResponse (_chat : ChatState) (message : String) : String :=
  let lowerMessage := jsToLowerCase message
  if jsIncludes lowerMessage ("tic") || jsIncludes lowerMessage ("search") ||
     jsIncludes lowerMessage ("transit") then
    ticResponse (ticIdOf message)
  else if jsIncludes lowerMessage ("habitable") || jsIncludes lowerMessage ("hz") then
    hzResponse
  else if jsIncludes lowerMessage ("kepler") then
    keplerResponse (keplerIdOf message)
  else if jsIncludes lowerMessage ("report") || jsIncludes lowerMessage ("generate") then
    reportResponse
  else
    defaultResponse message

/-! ## Conversation store and session controller (Chat methods) -/

/-- Chat.saveConversations: writes the collection to localStorage; the catch
branch only logs, so the state effect is the copy itself. -/
def Chat.saveConversations (s : ChatState) : ChatState :=
  { s with persisted := s.conversations }

/-- Chat.selectConversation: looks the id up and, when found, makes the
conversation current and aliases the volatile message list to its messages. -/
def Chat.selectConversation (s : ChatState) (id : String) : ChatState :=
  match s.conversations.find? (fun c => c.id == id) with
  | none => s
  | some conversation =>
      { s with currentConversation := some conversation.id,
               messages := conversation.messages }

/-- Chat.createConversation: allocates the id from the clock, unshifts the
new conversation, persists, selects it, and returns it. -/
def Chat.createConversation (s : ChatState) (title : String) (now : Nat) :
    ChatState × Conversation :=
  let conversation : Conversation :=
    { id := jsNumToString now, title := title, messages := [],
      createdAt := now, updatedAt := now }
  let s1 := { s with conversations := conversation :: s.conversations }
  let s2 := Chat.saveConversations s1
  let s3 := Chat.selectConversation s2 conversation.id
  (s3, conversation)

/-- Chat.updateConversationTitle: derives a 40-character title from the
message and stores it on the given conversation (the source mutates the
conversation object held in the collection; the update is keyed by id here),
then persists. -/
def Chat.updateConversationTitle (s : ChatState) (cid : String) (message : String) : ChatState :=
  let title := String.mk (message.data.take 40) ++ (if 40 < message.length then "..." else "")
  let s1 := { s with conversations :=
      s.conversations.map (fun c => if c.id == cid then { c with title := title } else c) }
  Chat.saveConversations s1

/-- Chat.deleteConversation: filters the id out of the collection, persists,
and clears the current reference and volatile messages when the deleted id
was current. -/
def Chat.deleteConversation (s : ChatState) (id : String) : ChatState :=
  let s1 := { s with conversations := s.conversations.filter (fun c => c.id != id) }
  let s2 := Chat.saveConversations s1
  if s2.currentConversation == some id then
    { s2 with currentConversation := none, messages := [] }
  else s2

/-- Chat.addMessage: builds the message from the clock, pushes it onto the
volatile list, and only when a conversation is current copies the list into
that conversation, bumps updatedAt, and persists. -/
def Chat.addMessage (s : ChatState) (role : Role) (content : String) (now : Nat) : ChatState :=
  let message : Message :=
    { id := jsNumToString now, role := role, content := content, timestamp := now }
  let s1 := { s with messages := s.messages ++ [message] }
  match s1.currentConversation with
  | some cid =>
      let s2 := { s1 with conversations :=
          s1.conversations.map (fun c =>
            if c.id == cid then { c with messages := s1.messages, updatedAt := now } else c) }
      Chat.saveConversations s2
  | none => s1

/-- Chat.setLoading: the typing-indicator and button toggles are DOM only. -/
def Chat.setLoading (s : ChatState) (loading : Bool) : ChatState :=
  { s with isLoading := loading }

/-- Parsed JSON body returned by the remote chat call, as read by
processMessage: the response and message fields when present. -/
structure ChatPayload where
  response : Option String
  message : Option String
deriving DecidableEq

/-- Outcome of the remote completion call attempted by processMessage:
the LarunAPI global may be absent; LarunAPI.chat may reject (network error,
non-2xx status, or JSON parse failure all throw in the api client); or it
resolves with a payload. -/
inductive RemoteOutcome where
  | apiUndefined
  | failure
  | success (payload : ChatPayload)
deriving DecidableEq

/-- JavaScript `a || b` on an optional string field: null, undefined and the
empty string are falsy. -/
def jsOrElse : Option String → String → String
  | some s, d => if s == "" then d else s
  | none, d => d

/-- Chat.processMessage: tries the remote API when present; any rejection is
caught and falls through to the simulated response, as does a payload whose
response and message fields are both falsy. -/
def Chat.processMessage (s : ChatState) (message : String) (outcome : RemoteOutcome) : String :=
  match outcome with
  | .apiUndefined => Chat.getSimulatedResponse s message
  | .failure => Chat.getSimulatedResponse s message
  | .success payload =>
      jsOrElse payload.response (jsOrElse payload.message (Chat.getSimulatedResponse s message))

/-- Chat.sendMessage: the guard returns when the text is empty or a send is
in flight; otherwise a conversation is created and titled when none is
current, the user message is appended, the loading flag is set, the response
is obtained (processMessage is total, so the catch branch of the source is
unreachable), the assistant message is appended, and the flag is cleared.
The three clock readings of the call are passed explicitly. -/
def Chat.sendMessage (s : ChatState) (text : String) (outcome : RemoteOutcome)
    (tCreate tUser tAssistant : Nat) : ChatState :=
  let message := text
  if message == "" || s.isLoading then s
  else
    let s1 :=
      match s.currentConversation with
      | none =>
          let sc := (Chat.createConversation s ("New Chat") tCreate).1
          Chat.updateConversationTitle sc (sc.currentConversation.getD ("")) message
      | some _ => s
    let s2 := Chat.addMessage s1 Role.user message tUser
    let s3 := Chat.setLoading s2 true
    let response := Chat.processMessage s3 message outcome
    let s4 := Chat.addMessage s3 Role.assistant response tAssistant
    Chat.setLoading s4 false

/-- Outcome of the upload call made by handleFileUpload. -/
inductive UploadOutcome where
  | apiUndefined
  | success (points : Option Nat)
  | failure (errMessage : String)
deriving DecidableEq

/-- handleFileUpload: appends the user upload notice, sets loading, appends
the assistant reply for the outcome, and clears loading. The modal close and
file-input handling are DOM only. -/
def handleFileUpload (s : ChatState) (fileName : String) (outcome : UploadOutcome)
    (tUser tAssistant : Nat) : ChatState :=
  let s1 := Chat.addMessage s Role.user ("Uploading file: " ++ fileName) tUser
  let s2 := Chat.setLoading s1 true
  let s3 :=
    match outcome with
    | .apiUndefined =>
        Chat.addMessage s2 Role.assistant
          ("I\x27ve received your light curve file (" ++ fileName ++ "). The data contains approximately 50,000 data points spanning 27 days. Would you like me to search for transit signals?")
          tAssistant
    | .success points =>
        let pointsText :=
          match points with
          | some n => if n == 0 then "many" else jsNumToString n
          | none => "many"
        Chat.addMessage s2 Role.assistant
          ("File uploaded successfully. I found " ++ pointsText ++ " data points. What would you like me to analyze?")
          tAssistant
    | .failure errMessage =>
        Chat.addMessage s2 Role.assistant
          ("Sorry, I couldn\x27t process the file: " ++ errMessage) tAssistant
  Chat.setLoading s3 false

/-! ## Time-bounded cache (MASTService) -/

/-- Entry stored in the cache map: { data, timestamp: Date.now() }. Times are
integers so that the age test mirrors JavaScript subtraction exactly. -/
structure CacheItem (α : Type) where
  data : α
  timestamp : Int
deriving DecidableEq

/-- JavaScript Map.get on an insertion-ordered association list. -/
def jsMapGet {α : Type} (m : List (String × CacheItem α)) (key : String) :
    Option (CacheItem α) :=
  (m.find? (fun p => p.1 == key)).map (fun p => p.2)

/-- JavaScript Map.set: replaces the value in place when the key exists,
appends the pair otherwise. -/
def jsMapSet {α : Type} (m : List (String × CacheItem α)) (key : String) (v : CacheItem α) :
    List (String × CacheItem α) :=
  if m.any (fun p => p.1 == key) then
    m.map (fun p => if p.1 == key then (key, v) else p)
  else m ++ [(key, v)]

/-- MASTService state: the response cache (the connection fields play no part
in the cache operations). -/
structure MASTService (α : Type) where
  cache : List (String × CacheItem α)
deriving DecidableEq

/-- MASTService.cacheTimeout: 5 * 60 * 1000 milliseconds. -/
def MASTService.cacheTimeout : Int := 5 * 60 * 1000

/-- MASTService.getFromCache: an entry is returned only when present and
strictly younger than the timeout; a missing or stale entry yields null. -/
def MASTService.getFromCache {α : Type} (s : MASTService α) (key : String) (now : Int) :
    Option α :=
  match jsMapGet s.cache key with
  | some item =>
      if now - item.timestamp < MASTService.cacheTimeout then some item.data else none
  | none => none

/-- MASTService.setCache: stores the value with the current clock reading. -/
def MASTService.setCache {α : Type} (s : MASTService α) (key : String) (data : α) (now : Int) :
    MASTService α :=
  { s with cache := jsMapSet s.cache key { data := data, timestamp := now } }

/-- MASTService.clearCache. -/
def MASTService.clearCache {α : Type} (s : MASTService α) : MASTService α :=
  { s with cache := [] }

/-! ## Specification-side definitions

These follow the words of the specification, to be compared with the
source-side definitions above. -/

/-- Keyword classes of the fallback generator, in the priority order the
specification states. -/
inductive FallbackClass where
  | target
  | habitableZone
  | keplerCatalog
  | reportGen
  | defaultHelp
deriving DecidableEq

/-- Specification-side classifier: case-insensitive substring search across
the fixed priority order target/search/transit, then habitable-zone, then the
named catalog identifier, then report/generate, else the default help text. -/
def specKeywordClass (message : String) : FallbackClass :=
  let lm := jsToLowerCase message
  if jsIncludes lm ("tic") || jsIncludes lm ("search") || jsIncludes lm ("transit") then
    FallbackClass.target
  else if jsIncludes lm ("habitable") || jsIncludes lm ("hz") then
    FallbackClass.habitableZone
  else if jsIncludes lm ("kepler") then
    FallbackClass.keplerCatalog
  else if jsIncludes lm ("report") || jsIncludes lm ("generate") then
    FallbackClass.reportGen
  else
    FallbackClass.defaultHelp

/-- Template selected for a keyword class. -/
def classTemplate (message : String) : FallbackClass → String
  | .target => ticResponse (ticIdOf message)
  | .habitableZone => hzResponse
  | .keplerCatalog => keplerResponse (keplerIdOf message)
  | .reportGen => reportResponse
  | .defaultHelp => defaultResponse message

/-- Number of messages with the given role. -/
def countRole (r : Role) (ms : List Message) : Nat :=
  (ms.filter (fun m => m.role == r)).length

/-! ## Concrete states used by the witness theorems -/

/-- Initial chat state: the module-level fields of the source before any
conversation exists. -/
def chatInit : ChatState :=
  { conversations := [], currentConversation := none, messages := [],
    isLoading := false, persisted := [] }

/-- A chat state with a send in flight. -/
def chatLoading : ChatState := { chatInit with isLoading := true }

/-- An empty cache over Nat payloads. -/
def cacheEmptyNat : MASTService Nat := { cache := [] }

/-- A chat state holding one stored conversation that is current. -/
def chatWithCurrent : ChatState :=
  { conversations := [{ id := "5", title := "t", messages := [], createdAt := 5,
                        updatedAt := 5 }],
    currentConversation := some ("5"), messages := [], isLoading := false,
    persisted := [{ id := "5", title := "t", messages := [], createdAt := 5,
                    updatedAt := 5 }] }

/-! ## Helper lemmas -/

theorem listStartsWith_refl_append (p t : List Char) :
    listStartsWith p (p ++ t) = true := by
  induction p with
  | nil => rfl
  | cons c cs ih => simp [listStartsWith, ih]

theorem listContains_nil_pat : ∀ t : List Char, listContains [] t = true
  | [] => rfl
  | _ :: _ => rfl

theorem listContains_cons (pat : List Char) (c : Char) (cs : List Char) :
    listContains pat (c :: cs) = (listStartsWith pat (c :: cs) || listContains pat cs) := rfl

theorem listContains_of_tail {pat : List Char} (c : Char) {cs : List Char}
    (h : listContains pat cs = true) : listContains pat (c :: cs) = true := by
  rw [listContains_cons, h, Bool.or_true]

theorem listContains_self_append (pat t : List Char) :
    listContains pat (pat ++ t) = true := by
  cases pat with
  | nil => exact listContains_nil_pat t
  | cons p ps =>
      rw [List.cons_append, listContains_cons]
      have h := listStartsWith_refl_append (p :: ps) t
      rw [List.cons_append] at h
      rw [h, Bool.true_or]

theorem listContains_append_middle (a b c : List Char) :
    listContains b (a ++ b ++ c) = true := by
  induction a with
  | nil => simpa using listContains_self_append b c
  | cons x xs ih =>
      have hshape : (x :: xs) ++ b ++ c = x :: (xs ++ b ++ c) := by simp
      rw [hshape]
      exact listContains_of_tail x ih

theorem string_data_append (a b : String) : (a ++ b).data = a.data ++ b.data := rfl

/-- A string built as `a ++ b ++ c` contains `b` as a substring. -/
theorem jsIncludes_append_middle (a b c : String) :
    jsIncludes (a ++ b ++ c) b = true := by
  show listContains b.data ((a ++ b ++ c)).data = true
  rw [string_data_append, string_data_append]
  exact listContains_append_middle a.data b.data c.data

theorem decDigitVal_natDigitChar (d : Nat) (hd : d < 10) :
    decDigitVal (natDigitChar d) = d := by
  interval_cases d <;> rfl

theorem decode_natDecDigits (n : Nat) :
    (natDecDigits n).foldl (fun a c => 10 * a + decDigitVal c) 0 = n := by
  induction n using Nat.strong_induction_on with
  | _ n ih =>
      rw [natDecDigits]
      by_cases h : n < 10
      · simp only [h, dif_pos]
        simp [List.foldl, decDigitVal_natDigitChar n h]
      · simp only [h, dif_neg, not_false_iff]
        rw [List.foldl_append]
        have hdiv : n / 10 < n := Nat.div_lt_self (by omega) (by omega)
        rw [ih (n / 10) hdiv]

        simp only [List.foldl_cons, List.foldl_nil]
        rw [decDigitVal_natDigitChar (n % 10) (Nat.mod_lt n (by omega))]
        omega

theorem decodeDec_jsNumToString (n : Nat) : decodeDec (jsNumToString n) = n :=
  decode_natDecDigits n

theorem jsNumToString_injective {m n : Nat}
    (h : jsNumToString m = jsNumToString n) : m = n := by
  have := congrArg decodeDec h
  rwa [decodeDec_jsNumToString, decodeDec_jsNumToString] at this


theorem filter_idem {α : Type} (p : α → Bool) (l : List α) :
    (l.filter p).filter p = l.filter p := by
  induction l with
  | nil => rfl
  | cons x xs ih => by_cases h : p x <;> simp [List.filter_cons, h, ih]

theorem addMessage_messages (s : ChatState) (role : Role) (content : String) (now : Nat) :
    (Chat.addMessage s role content now).messages =
      s.messages ++ [{ id := jsNumToString now, role := role, content := content,
                       timestamp := now }] := by
  unfold Chat.addMessage Chat.saveConversations
  cases h : s.currentConversation <;> simp [h]

theorem addMessage_currentConversation (s : ChatState) (role : Role) (content : String)
    (now : Nat) :
    (Chat.addMessage s role content now).currentConversation = s.currentConversation := by
  unfold Chat.addMessage Chat.saveConversations
  cases h : s.currentConversation <;> simp [h]

theorem addMessage_isLoading (s : ChatState) (role : Role) (content : String) (now : Nat) :
    (Chat.addMessage s role content now).isLoading = s.isLoading := by
  unfold Chat.addMessage Chat.saveConversations
  cases h : s.currentConversation <;> simp [h]

/-- With no current conversation, addMessage only grows the volatile list. -/
theorem addMessage_of_current_none (s : ChatState) (role : Role) (content : String)
    (now : Nat) (h : s.currentConversation = none) :
    Chat.addMessage s role content now =
      { s with messages := s.messages ++
          [{ id := jsNumToString now, role := role, content := content,
             timestamp := now }] } := by
  unfold Chat.addMessage
  simp [h]

theorem setLoading_messages (s : ChatState) (b : Bool) :
    (Chat.setLoading s b).messages = s.messages := rfl

theorem setLoading_currentConversation (s : ChatState) (b : Bool) :
    (Chat.setLoading s b).currentConversation = s.currentConversation := rfl

theorem setLoading_conversations (s : ChatState) (b : Bool) :
    (Chat.setLoading s b).conversations = s.conversations := rfl

theorem setLoading_persisted (s : ChatState) (b : Bool) :
    (Chat.setLoading s b).persisted = s.persisted := rfl

theorem createConversation_fst (s : ChatState) (title : String) (now : Nat) :
    (Chat.createConversation s title now).1 =
      { conversations :=
          { id := jsNumToString now, title := title, messages := [],
            createdAt := now, updatedAt := now } :: s.conversations,
        currentConversation := some (jsNumToString now),
        messages := [],
        isLoading := s.isLoading,
        persisted :=
          { id := jsNumToString now, title := title, messages := [],
            createdAt := now, updatedAt := now } :: s.conversations } := by
  unfold Chat.createConversation Chat.saveConversations Chat.selectConversation
  simp [List.find?_cons_of_pos]

theorem updateConversationTitle_messages (s : ChatState) (cid message : String) :
    (Chat.updateConversationTitle s cid message).messages = s.messages := rfl

theorem updateConversationTitle_currentConversation (s : ChatState) (cid message : String) :
    (Chat.updateConversationTitle s cid message).currentConversation =
      s.currentConversation := rfl

theorem updateConversationTitle_isLoading (s : ChatState) (cid message : String) :
    (Chat.updateConversationTitle s cid message).isLoading = s.isLoading := rfl

/-- The fallback generator ignores its receiver, so processMessage ignores
every part of the state. -/
theorem processMessage_state_irrelevant (s₁ s₂ : ChatState) (message : String)
    (o : RemoteOutcome) :
    Chat.processMessage s₁ message o = Chat.processMessage s₂ message o := by
  cases o <;> rfl

theorem countRole_append (r : Role) (xs ys : List Message) :
    countRole r (xs ++ ys) = countRole r xs + countRole r ys := by
  simp [countRole, List.filter_append]

/-- Dispatch of the fallback generator agrees with the specification-side
classifier and template table. -/
theorem getSimulatedResponse_eq_classTemplate (chat : ChatState) (message : String) :
    Chat.getSimulatedResponse chat message =
      classTemplate message (specKeywordClass message) := by
  simp only [Chat.getSimulatedResponse, specKeywordClass]
  split_ifs <;> rfl

theorem find?_map_replace {α : Type} (m : List (String × CacheItem α)) (key : String)
    (v : CacheItem α) (h : m.any (fun p => p.1 == key) = true) :
    (m.map (fun p => if p.1 == key then (key, v) else p)).find? (fun p => p.1 == key) =
      some (key, v) := by
  induction m with
  | nil => simp at h
  | cons p ps ih =>
      by_cases hp : (p.1 == key) = true
      · rw [List.map_cons, if_pos hp]
        exact List.find?_cons_of_pos _ (by simp)
      · have hps : ps.any (fun q => q.1 == key) = true := by
          simp [List.any_cons, hp] at h
          simpa using h
        rw [List.map_cons, if_neg hp]
        rw [List.find?_cons_of_neg _ (by simpa using hp)]
        exact ih hps

theorem find?_append_new {α : Type} (m : List (String × CacheItem α)) (key : String)
    (v : CacheItem α) (h : m.any (fun p => p.1 == key) = false) :
    (m ++ [(key, v)]).find? (fun p => p.1 == key) = some (key, v) := by
  induction m with
  | nil => simp [List.find?_cons]
  | cons p ps ih =>
      have hp : (p.1 == key) = false := by
        by_contra hcon
        simp [List.any_cons] at h
        exact absurd h.1 (by simpa using hcon)
      have hps : ps.any (fun q => q.1 == key) = false := by
        simp [List.any_cons] at h
        simpa using h.2
      rw [List.cons_append, List.find?_cons_of_neg _ (by simpa using hp)]
      exact ih hps

/-- Map.set then Map.get of the same key yields the stored item. -/
theorem jsMapGet_jsMapSet_self {α : Type} (m : List (String × CacheItem α)) (key : String)
    (v : CacheItem α) : jsMapGet (jsMapSet m key v) key = some v := by
  unfold jsMapSet jsMapGet
  by_cases hmem : m.any (fun p => p.1 == key) = true
  · rw [if_pos hmem, find?_map_replace m key v hmem]
    rfl
  · rw [Bool.not_eq_true] at hmem
    rw [if_neg (by simp [hmem]), find?_append_new m key v hmem]
    rfl

theorem string_ext {a b : String} (h : a.data = b.data) : a = b := by
  cases a
  cases b
  exact congrArg String.mk h

theorem string_append_assoc (a b c : String) : a ++ b ++ c = a ++ (b ++ c) :=
  string_ext (by simp [string_data_append, List.append_assoc])

/-- A string of the shape `a ++ b ++ c ++ d` contains `b ++ c`. -/
theorem jsIncludes_join (a b c d : String) :
    jsIncludes (a ++ b ++ c ++ d) (b ++ c) = true := by
  show listContains (b ++ c).data ((a ++ b ++ c ++ d)).data = true
  rw [string_data_append, string_data_append, string_data_append, string_data_append]
  have h := listContains_append_middle a.data (b.data ++ c.data) d.data
  simpa [List.append_assoc] using h

theorem role_beq_user_assistant : (Role.user == Role.assistant) = false := rfl

theorem role_beq_assistant_assistant : (Role.assistant == Role.assistant) = true := rfl

theorem option_beq_none_some (x : String) :
    ((none : Option String) == some x) = false := rfl

theorem createConversation_fst_messages (s : ChatState) (title : String) (now : Nat) :
    ((Chat.createConversation s title now).1).messages = [] := by
  rw [createConversation_fst]

theorem createConversation_fst_currentConversation (s : ChatState) (title : String)
    (now : Nat) :
    ((Chat.createConversation s title now).1).currentConversation =
      some (jsNumToString now) := by
  rw [createConversation_fst]

/-- Canonical-state form of processMessage, used to normalize the receiver. -/
theorem processMessage_eq_canonical (s : ChatState) (message : String) (o : RemoteOutcome) :
    Chat.processMessage s message o = Chat.processMessage chatInit message o :=
  processMessage_state_irrelevant s chatInit message o

/-- The conversation returned by createConversation carries the clock id,
whatever the input state. -/
theorem createConversation_snd_id (s : ChatState) (title : String) (now : Nat) :
    ((Chat.createConversation s title now).2).id = jsNumToString now := rfl

/-- Composite state effect of the upload handler body when no conversation
is current: both appended messages stay volatile. -/
theorem upload_double_append (s : ChatState) (c₁ c₂ : String) (t₁ t₂ : Nat)
    (h : s.currentConversation = none) :
    Chat.setLoading (Chat.addMessage
        (Chat.setLoading (Chat.addMessage s Role.user c₁ t₁) true)
        Role.assistant c₂ t₂) false =
      { s with
        messages := s.messages ++
          [{ id := jsNumToString t₁, role := Role.user, content := c₁, timestamp := t₁ },
           { id := jsNumToString t₂, role := Role.assistant, content := c₂,
             timestamp := t₂ }],
        isLoading := false } := by
  rw [addMessage_of_current_none s Role.user c₁ t₁ h]
  rw [addMessage_of_current_none
    (Chat.setLoading { s with messages := s.messages ++
        [{ id := jsNumToString t₁, role := Role.user, content := c₁, timestamp := t₁ }] }
      true)
    Role.assistant c₂ t₂ (by rw [setLoading_currentConversation]; exact h)]
  simp [Chat.setLoading, List.append_assoc]

/-- Message-list effect of a completed send: the possibly reset base list,
then the user message, then the assistant message carrying the processed
response. -/
theorem sendMessage_messages_structure (s : ChatState) (text : String) (o : RemoteOutcome)
    (t₁ t₂ t₃ : Nat) (h1 : s.isLoading = false) (h2 : text ≠ "") :
    (Chat.sendMessage s text o t₁ t₂ t₃).messages =
      (match s.currentConversation with | none => [] | some _ => s.messages) ++
      [{ id := jsNumToString t₂, role := Role.user, content := text, timestamp := t₂ },
       { id := jsNumToString t₃, role := Role.assistant,
         content := Chat.processMessage s text o, timestamp := t₃ }] := by
  have hbeq : (text == "") = false := beq_eq_false_iff_ne.mpr h2
  have hguard : (text == "" || s.isLoading) = false := by simp [hbeq, h1]
  simp only [Chat.sendMessage, hguard]
  rw [if_neg Bool.false_ne_true]
  cases hc : s.currentConversation with
  | none =>
      simp only [hc, setLoading_messages, addMessage_messages,
        updateConversationTitle_messages, createConversation_fst_messages,
        processMessage_eq_canonical, List.nil_append, List.append_assoc,
        List.cons_append, List.singleton_append]
  | some cid =>
      simp only [hc, setLoading_messages, addMessage_messages,
        processMessage_eq_canonical, List.append_assoc, List.cons_append,
        List.singleton_append, List.nil_append]

/-! ## Claim theorems -/

/-- C1: for every message and every failure mode of the remote completion
call — the API global absent, the call rejected (network error, non-2xx
status, or payload parse failure, all of which throw in the api client), or
a resolved payload whose response and message fields are both falsy — the
client message-processing operation returns the fallback generator text for
that message; the embedded operation is total, so no exception reaches the
caller. -/
theorem processMessage_falls_back_on_failure (s : ChatState) (message : String)
    (o : RemoteOutcome)
    (h : o = RemoteOutcome.apiUndefined ∨ o = RemoteOutcome.failure ∨
      ∃ p : ChatPayload, o = RemoteOutcome.success p ∧
        (p.response = none ∨ p.response = some "") ∧
        (p.message = none ∨ p.message = some "")) :
    Chat.processMessage s message o = Chat.getSimulatedResponse s message := by
  rcases h with h | h | ⟨p, hp, hr, hm⟩
  · subst h
    rfl
  · subst h
    rfl
  · subst hp
    unfold Chat.processMessage
    rcases hr with hr | hr <;> rcases hm with hm | hm <;> simp [jsOrElse, hr, hm]

/-- Witness for C1 at the rejected-call outcome. -/
theorem processMessage_falls_back_on_failure_witness :
    Chat.processMessage chatInit ("ping") RemoteOutcome.failure =
      Chat.getSimulatedResponse chatInit ("ping") :=
  processMessage_falls_back_on_failure chatInit ("ping") RemoteOutcome.failure
    (Or.inr (Or.inl rfl))

/-- C2: getFromCache returns the stored value exactly when an entry exists
for the key and its age is strictly below the five-minute timeout; it
returns null both when no entry exists and when the age reached the
timeout; and setCache overwrites the slot of the key with the new value and
the insertion clock reading. -/
theorem cache_get_put_contract {α : Type} (s : MASTService α) (key : String) (now : Int) :
    (jsMapGet s.cache key = none → s.getFromCache key now = none) ∧
    (∀ item : CacheItem α, jsMapGet s.cache key = some item →
      (now - item.timestamp < MASTService.cacheTimeout →
        s.getFromCache key now = some item.data) ∧
      (MASTService.cacheTimeout ≤ now - item.timestamp →
        s.getFromCache key now = none)) ∧
    (∀ (v : α) (t : Int),
      jsMapGet ((s.setCache key v t)).cache key = some { data := v, timestamp := t }) := by
  refine ⟨?_, ?_, ?_⟩
  · intro h
    unfold MASTService.getFromCache
    rw [h]
  · intro item h
    constructor
    · intro hfresh
      simp only [MASTService.getFromCache, h]
      rw [if_pos hfresh]
    · intro hstale
      simp only [MASTService.getFromCache, h]
      rw [if_neg (by omega)]
  · intro v t
    show jsMapGet (jsMapSet s.cache key { data := v, timestamp := t }) key =
      some { data := v, timestamp := t }
    exact jsMapGet_jsMapSet_self s.cache key { data := v, timestamp := t }

/-- Witness for C2: put then an immediate get returns the stored value. -/
theorem cache_get_put_contract_witness :
    (cacheEmptyNat.setCache ("k") 42 100).getFromCache ("k") 100 = some 42 := by
  have h3 := (cache_get_put_contract cacheEmptyNat ("k") 100).2.2 42 100
  have h2 := (cache_get_put_contract (cacheEmptyNat.setCache ("k") 42 100) ("k") 100).2.1
    { data := 42, timestamp := 100 } h3
  exact h2.1 (by decide)

/-- C3 (counterexample): on the empty store — where no conversation id
resolves — addMessage does not fail with any error: it returns normally and
a message is added to the volatile list, refuting the claimed NotFoundError
failure under which no message would be added. -/
theorem addMessage_unresolved_no_failure_counterexample :
    (Chat.addMessage chatInit Role.user ("hello") 5).messages.length = 1 ∧
    (Chat.addMessage chatInit Role.user ("hello") 5).conversations = [] ∧
    (Chat.addMessage chatInit Role.user ("hello") 5).persisted = [] :=
  ⟨rfl, rfl, rfl⟩

/-- C3 (amended): when the conversation reference does not resolve — no
conversation is current — the append raises no error and leaves the stored
collection and the persisted copy unchanged; the message is added only to
the volatile in-memory list. -/
theorem addMessage_unresolved_leaves_store_unchanged (s : ChatState) (role : Role)
    (content : String) (now : Nat) (h : s.currentConversation = none) :
    (Chat.addMessage s role content now).conversations = s.conversations ∧
    (Chat.addMessage s role content now).persisted = s.persisted ∧
    (Chat.addMessage s role content now).messages =
      s.messages ++ [{ id := jsNumToString now, role := role, content := content,
                       timestamp := now }] := by
  rw [addMessage_of_current_none s role content now h]
  exact ⟨rfl, rfl, rfl⟩

/-- Witness for C3 (amended) on the empty store. -/
theorem addMessage_unresolved_leaves_store_unchanged_witness :
    (Chat.addMessage chatInit Role.assistant ("x") 7).persisted = chatInit.persisted :=
  (addMessage_unresolved_leaves_store_unchanged chatInit Role.assistant ("x") 7 rfl).2.1

/-- C4 (counterexample): two successive create calls within the same clock
millisecond return conversations with equal ids — the timestamp-derived
identifier is reused, contradicting the claimed uniqueness of ids for
distinct create calls within one millisecond. -/
theorem conversation_id_collision_same_millisecond :
    ((Chat.createConversation chatInit ("New Chat") 1700000000000).2).id =
      ((Chat.createConversation
          (Chat.createConversation chatInit ("New Chat") 1700000000000).1
          ("New Chat") 1700000000000).2).id :=
  (createConversation_snd_id chatInit ("New Chat") 1700000000000).trans
    (createConversation_snd_id
      (Chat.createConversation chatInit ("New Chat") 1700000000000).1
      ("New Chat") 1700000000000).symm

/-- C4 (amended): every allocated identifier is the decimal rendering of the
allocating clock reading: allocations at distinct milliseconds receive
distinct ids, ids decode to strictly increasing numbers as the clock
advances, but two allocations within the same millisecond share one id. -/
theorem allocation_ids_track_clock (s₁ s₂ : ChatState) (title₁ title₂ : String)
    (role : Role) (content : String) (t₁ t₂ : Nat) :
    ((Chat.createConversation s₁ title₁ t₁).2).id = jsNumToString t₁ ∧
    (∃ m : Message, (Chat.addMessage s₁ role content t₁).messages = s₁.messages ++ [m] ∧
      m.id = jsNumToString t₁ ∧ m.timestamp = t₁) ∧
    decodeDec (jsNumToString t₁) = t₁ ∧
    (t₁ ≠ t₂ → ((Chat.createConversation s₁ title₁ t₁).2).id ≠
      ((Chat.createConversation s₂ title₂ t₂).2).id) ∧
    (t₁ < t₂ → decodeDec ((Chat.createConversation s₁ title₁ t₁).2).id <
      decodeDec ((Chat.createConversation s₂ title₂ t₂).2).id) ∧
    ((Chat.createConversation s₁ title₁ t₁).2).id =
      ((Chat.createConversation s₂ title₂ t₁).2).id := by
  refine ⟨rfl, ⟨_, addMessage_messages s₁ role content t₁, rfl, rfl⟩,
    decodeDec_jsNumToString t₁, ?_, ?_, rfl⟩
  · intro hne heq
    exact hne (jsNumToString_injective heq)
  · intro hlt
    show decodeDec (jsNumToString t₁) < decodeDec (jsNumToString t₂)
    rw [decodeDec_jsNumToString, decodeDec_jsNumToString]
    exact hlt

/-- Witness for C4 (amended): clock readings one and two give distinct ids. -/
theorem allocation_ids_track_clock_witness :
    ((Chat.createConversation chatInit ("a") 1).2).id ≠
      ((Chat.createConversation chatInit ("b") 2).2).id :=
  (allocation_ids_track_clock chatInit chatInit ("a") ("b") Role.user ("x") 1 2).2.2.2.1
    (by decide)

/-- C5: while the loading flag is set every second send call is a no-op
returning the state unchanged — no conversation created, no message
appended; a completed send appends exactly the one user and the one
assistant message, so exactly one assistant message per completed send. -/
theorem sendMessage_loading_noop_single_assistant (s : ChatState) (text : String)
    (o : RemoteOutcome) (t₁ t₂ t₃ : Nat) :
    (s.isLoading = true → Chat.sendMessage s text o t₁ t₂ t₃ = s) ∧
    (s.isLoading = false → text ≠ "" →
      (Chat.sendMessage s text o t₁ t₂ t₃).messages =
        (match s.currentConversation with | none => [] | some _ => s.messages) ++
        [{ id := jsNumToString t₂, role := Role.user, content := text, timestamp := t₂ },
         { id := jsNumToString t₃, role := Role.assistant,
           content := Chat.processMessage s text o, timestamp := t₃ }] ∧
      countRole Role.assistant ((Chat.sendMessage s text o t₁ t₂ t₃).messages) =
        countRole Role.assistant
          (match s.currentConversation with | none => [] | some _ => s.messages) + 1) := by
  constructor
  · intro h
    unfold Chat.sendMessage
    rw [h]
    simp
  · intro h1 h2
    have hmsgs := sendMessage_messages_structure s text o t₁ t₂ t₃ h1 h2
    refine ⟨hmsgs, ?_⟩
    rw [hmsgs, countRole_append]
    simp [countRole, List.filter_cons, role_beq_user_assistant, role_beq_assistant_assistant]

/-- Witness for C5: a loading-state send is the identity; a fresh send
appends exactly one assistant message. -/
theorem sendMessage_loading_noop_single_assistant_witness :
    (Chat.sendMessage chatLoading ("hi") RemoteOutcome.failure 1 2 3 = chatLoading) ∧
    countRole Role.assistant
        ((Chat.sendMessage chatInit ("hi") RemoteOutcome.failure 1 2 3).messages) =
      countRole Role.assistant
        (match chatInit.currentConversation with | none => [] | some _ => chatInit.messages)
        + 1 :=
  ⟨(sendMessage_loading_noop_single_assistant chatLoading ("hi") RemoteOutcome.failure 1 2 3).1
      rfl,
   ((sendMessage_loading_noop_single_assistant chatInit ("hi") RemoteOutcome.failure 1 2 3).2
      rfl (by decide)).2⟩

/-- C6: the fallback generator dispatches by case-insensitive substring
match in the fixed priority order target/search/transit, then
habitable-zone, then the Kepler catalog identifier, then report/generate,
else the default help text: the response always equals the template of the
first matching keyword class, so a message matching an earlier class never
receives the template of a later class. -/
theorem getSimulatedResponse_priority_dispatch (chat : ChatState) (message : String) :
    Chat.getSimulatedResponse chat message =
      classTemplate message (specKeywordClass message) :=
  getSimulatedResponse_eq_classTemplate chat message

/-- C7: a message of the target/search/transit class receives the extracted
identifier (TIC-prefix regex, else the first run of six or more digits, else
the fixed default 307210830) embedded after the text TIC; in particular the
scenario message yields a response containing TIC 123456 and the tabular
periodogram section. -/
theorem target_branch_identifier_extraction (chat : ChatState) (message : String) :
    (specKeywordClass message = FallbackClass.target →
      jsIncludes (Chat.getSimulatedResponse chat message)
        ("TIC " ++ ticIdOf message) = true) ∧
    (jsMatchTic message.data = none → jsMatchSixDigits message.data = none →
      ticIdOf message = "307210830") ∧
    jsIncludes (Chat.getSimulatedResponse chat ("Search for transits in TIC 123456"))
      ("TIC 123456") = true ∧
    jsIncludes (Chat.getSimulatedResponse chat ("Search for transits in TIC 123456"))
      ("**BLS Periodogram Results**\n| Parameter | Value |\n|-----------|-------|\n| Period | 3.425 ± 0.001 days |") = true := by
  have hresp : Chat.getSimulatedResponse chat ("Search for transits in TIC 123456") =
      ticResponse ("123456") := by
    rw [getSimulatedResponse_eq_classTemplate]
    have h1 : specKeywordClass ("Search for transits in TIC 123456") =
        FallbackClass.target := by decide
    rw [h1]
    show ticResponse (ticIdOf ("Search for transits in TIC 123456")) = ticResponse ("123456")
    have h2 : ticIdOf ("Search for transits in TIC 123456") = "123456" := by decide
    rw [h2]
  refine ⟨?_, ?_, ?_, ?_⟩
  · intro h
    rw [getSimulatedResponse_eq_classTemplate, h]
    show jsIncludes (ticResponse (ticIdOf message)) (("TIC ") ++ ticIdOf message) = true
    unfold ticResponse
    rw [show ("I\x27ll analyze TIC " : String) = ("I\x27ll analyze ") ++ ("TIC ") by decide]
    exact jsIncludes_join _ _ _ _
  · intro hn1 hn2
    unfold ticIdOf
    rw [hn1, hn2]
  · rw [hresp]
    decide
  · rw [hresp]
    decide

/-- Witness for C7 at a message of the target class. -/
theorem target_branch_identifier_extraction_witness :
    jsIncludes (Chat.getSimulatedResponse chatInit ("find transit 9876543 now"))
      ("TIC " ++ ticIdOf ("find transit 9876543 now")) = true :=
  (target_branch_identifier_extraction chatInit ("find transit 9876543 now")).1 (by decide)

/-- C8: the fallback generator output depends only on the message content:
any two receiver states — hence any two calls with the same message, at any
times and histories — yield character-identical output, with no clock,
randomness, or network input. -/
theorem getSimulatedResponse_deterministic (chat₁ chat₂ : ChatState) (message : String) :
    Chat.getSimulatedResponse chat₁ message = Chat.getSimulatedResponse chat₂ message := rfl

/-- C9: deleting a conversation id twice raises no error and the second
deletion leaves the state exactly as after the first; and when the deleted
id was current the current-conversation reference is cleared. -/
theorem deleteConversation_idempotent_clears_current (s : ChatState) (id : String) :
    Chat.deleteConversation (Chat.deleteConversation s id) id =
      Chat.deleteConversation s id ∧
    (s.currentConversation = some id →
      (Chat.deleteConversation s id).currentConversation = none) := by
  constructor
  · unfold Chat.deleteConversation Chat.saveConversations
    by_cases h : s.currentConversation == some id
    · simp [h, filter_idem, option_beq_none_some]
    · simp [h, filter_idem]
  · intro h
    unfold Chat.deleteConversation Chat.saveConversations
    simp [h]

/-- Witness for C9: deleting the current conversation clears the current
reference. -/
theorem deleteConversation_idempotent_clears_current_witness :
    (Chat.deleteConversation chatWithCurrent ("5")).currentConversation = none :=
  (deleteConversation_idempotent_clears_current chatWithCurrent ("5")).2 rfl

/-- C10: a message appended while no conversation is current — as the
file-upload handler does before any conversation exists — reaches only the
volatile in-memory list: after the whole upload handler the stored
collection and the persisted copy are unchanged, so the upload messages are
never durably saved. -/
theorem fileUpload_without_conversation_not_durable (s : ChatState) (fileName : String)
    (outcome : UploadOutcome) (t₁ t₂ : Nat) (h : s.currentConversation = none) :
    (handleFileUpload s fileName outcome t₁ t₂).conversations = s.conversations ∧
    (handleFileUpload s fileName outcome t₁ t₂).persisted = s.persisted ∧
    ∃ u a : Message, u.role = Role.user ∧ a.role = Role.assistant ∧
      (handleFileUpload s fileName outcome t₁ t₂).messages = s.messages ++ [u, a] := by
  cases outcome with
  | apiUndefined =>
      simp only [handleFileUpload]
      rw [upload_double_append s _ _ t₁ t₂ h]
      exact ⟨rfl, rfl, _, _, rfl, rfl, rfl⟩
  | success points =>
      simp only [handleFileUpload]
      rw [upload_double_append s _ _ t₁ t₂ h]
      exact ⟨rfl, rfl, _, _, rfl, rfl, rfl⟩
  | failure errMessage =>
      simp only [handleFileUpload]
      rw [upload_double_append s _ _ t₁ t₂ h]
      exact ⟨rfl, rfl, _, _, rfl, rfl, rfl⟩

/-- Witness for C10 on the empty store with the simulated upload path. -/
theorem fileUpload_without_conversation_not_durable_witness :
    (handleFileUpload chatInit ("lc.csv") UploadOutcome.apiUndefined 1 2).persisted =
      chatInit.persisted :=
  (fileUpload_without_conversation_not_durable chatInit ("lc.csv")
    UploadOutcome.apiUndefined 1 2 rfl).2.1

end LarunSpace
